import Mathlib

/-!
Verification development for the caregiving record app (src/app.py).

The SQLite tables created by `init_db_if_needed` are modelled as lists of
row structures inside a `DB` state record, and every function of the source
that writes or reads the database is translated to a pure Lean function on
`DB`.  Conventions used throughout:

* SQLite `INTEGER` columns are `ℤ`, `TEXT` columns are `String`, and `REAL`
  columns (the vitals temperature) are modelled as exact rationals `ℚ`;
  the temperature values handled by the app are one-decimal readings, for
  which rational arithmetic agrees with the source's float arithmetic.
* `AUTOINCREMENT` primary keys are modelled with explicit `next_…_id`
  counters in `DB`.
* The embedding models the database after `init_db_if_needed` has run, so
  every `_has_column` check in the source takes its `True` branch (all
  migration columns exist).
* Wall-clock values (`datetime.now()` timestamps, `today_ymd`, `now_hm`)
  and the previous-vitals row computed by `get_prev_vitals` are passed to
  the modelled functions as explicit arguments.
* Python `str.strip`, `str.lower` and substring containment (`in`) are
  modelled by `pyStrip`, `pyLower` and `pyIn` below; `ORDER BY ts DESC`
  string comparison is modelled by codepoint-lexicographic comparison,
  which agrees with SQLite's binary collation on UTF-8 text.
-/

namespace KaigoApp

/-! ### Python string primitives -/

/-- Model of Python `str.lower` restricted to ASCII letters (every cased
character appearing in the source's keyword lists is ASCII). -/
def pyCharLower (c : Char) : Char :=
  if 'A' ≤ c ∧ c ≤ 'Z' then Char.ofNat (c.toNat + 32) else c

def pyLower (s : String) : String :=
  String.mk (s.toList.map pyCharLower)

/-- Characters removed by Python `str.strip()`. -/
def isPySpace (c : Char) : Bool :=
  c == ' ' || c == '\t' || c == '\n' || c == '\r' || c == '\x0b' || c == '\x0c' || c == '　'

/-- Model of Python `str.strip()`. -/
def pyStrip (s : String) : String :=
  String.mk (((s.toList.dropWhile isPySpace).reverse.dropWhile isPySpace).reverse)

def startsWithChars : List Char → List Char → Bool
  | [], _ => true
  | _ :: _, [] => false
  | a :: as, b :: bs => a == b && startsWithChars as bs

def containsSub : List Char → List Char → Bool
  | [], needle => needle.isEmpty
  | h :: t, needle => startsWithChars needle (h :: t) || containsSub t needle

/-- Model of Python `needle in hay` on strings. -/
def pyIn (needle hay : String) : Bool :=
  containsSub hay.toList needle.toList

/-- Codepoint-lexicographic strict order on char lists; agrees with
SQLite's binary `TEXT` comparison on UTF-8 encoded strings. -/
def charListLt : List Char → List Char → Bool
  | _, [] => false
  | [], _ :: _ => true
  | a :: as, b :: bs => decide (a < b) || (a == b && charListLt as bs)

def pyStrLt (a b : String) : Bool :=
  charListLt a.toList b.toList

/-! ### Numeric formatting helpers (`_format_delta`, `_format_delta_int`) -/

/-- Round to the nearest integer, ties to even (Python's float formatting
rounding mode, modelled over exact rationals). -/
def roundHalfEven (q : ℚ) : ℤ :=
  if q - ⌊q⌋ < 1/2 then ⌊q⌋
  else if 1/2 < q - ⌊q⌋ then ⌊q⌋ + 1
  else if ⌊q⌋ % 2 = 0 then ⌊q⌋ else ⌊q⌋ + 1

/-- `_format_delta` (src/app.py:615), digits = 1 as used by the source:
Python `f"{value:+.1f}{unit}"` over exact rationals. -/
def _format_delta (value : ℚ) (unit : String) : String :=
  let sign := if value < 0 then "-" else "+"
  let n := roundHalfEven (|value| * 10)
  sign ++ toString (n / 10) ++ "." ++ toString (n % 10) ++ unit

/-- `_format_delta_int` (src/app.py:619): Python `f"{value:+d}{unit}"`. -/
def _format_delta_int (value : ℤ) (unit : String) : String :=
  (if value < 0 then toString value else "+" ++ toString value) ++ unit

/-- Python `f"{x:.1f}"` over exact rationals. -/
def format_1f (value : ℚ) : String :=
  let sign := if value < 0 then "-" else ""
  let n := roundHalfEven (|value| * 10)
  sign ++ toString (n / 10) ++ "." ++ toString (n % 10)

/-! ### Data model: the SQLite tables of `init_db_if_needed` (src/app.py:66) -/

structure ResidentRow where
  id : ℤ
  code : String
  name : String
  diagnosis_main : String
  diagnosis_free : String
  care_level : String
deriving DecidableEq

structure VitalsRow where
  resident_id : ℤ
  ymd : String
  slot : String
  hm : String
  ts : String
  temperature : ℚ
  bp_high : ℤ
  bp_low : ℤ
  pulse : ℤ
  spo2 : ℤ
  respiration : ℤ
  condition : String
  staff_name : String
deriving DecidableEq

structure SupportLogRow where
  id : ℕ
  resident_id : ℤ
  ymd : String
  slot : String
  hm : String
  ts : String
  text : String
  ai_sentiment : String
  staff_name : String
deriving DecidableEq

structure HandoverNoteRow where
  id : ℕ
  ymd : String
  slot : String
  hm : String
  ts : String
  text : String
  level : String
  likes : ℤ
  staff_name : String
deriving DecidableEq

structure BathRow where
  resident_id : ℤ
  ymd : String
  hm : String
  ts : String
  status : String
  staff_name : String
deriving DecidableEq

structure MealRow where
  resident_id : ℤ
  ymd : String
  slot : String
  hm : String
  ts : String
  amount : ℤ
  staff_name : String
deriving DecidableEq

structure MedRow where
  resident_id : ℤ
  ymd : String
  slot : String
  hm : String
  ts : String
  taken : ℤ
  staff_name : String
deriving DecidableEq

structure PatrolRow where
  resident_id : ℤ
  ymd : String
  round : String
  hm : String
  ts : String
  state : String
  safety_ok : ℤ
  staff_name : String
deriving DecidableEq

structure DB where
  residents : List ResidentRow
  vitals : List VitalsRow
  support_logs : List SupportLogRow
  handover_notes : List HandoverNoteRow
  baths : List BathRow
  meals : List MealRow
  meds : List MedRow
  patrols : List PatrolRow
  next_support_id : ℕ
  next_handover_id : ℕ

def emptyDB : DB :=
  { residents := [], vitals := [], support_logs := [], handover_notes := []
    baths := [], meals := [], meds := [], patrols := []
    next_support_id := 1, next_handover_id := 1 }

/-- Well-formedness: the autoincrement counters dominate every stored id. -/
def DB.WF (db : DB) : Prop :=
  (∀ r ∈ db.support_logs, r.id < db.next_support_id) ∧
  (∀ r ∈ db.handover_notes, r.id < db.next_handover_id)

/-- The `RESIDENTS` constant (src/app.py:31). -/
def RESIDENTS : List ResidentRow :=
  (List.range 20).map (fun i =>
    { id := Int.ofNat i
      code := String.mk [Char.ofNat (65 + i)]
      name := "利用者 " ++ String.mk [Char.ofNat (65 + i)]
      diagnosis_main := "", diagnosis_free := "", care_level := "" })

/-! ### Store operations (src/app.py:229-478) -/

def vitalsKey (r : VitalsRow) : ℤ × String × String :=
  (r.resident_id, r.ymd, r.slot)

/-- `upsert_vitals` (src/app.py:242): `INSERT OR REPLACE` keyed on the
primary key `(resident_id, ymd, slot)` — the conflicting row, if any, is
deleted and the new row inserted. -/
def upsert_vitals (data : VitalsRow) (db : DB) : DB :=
  { db with vitals :=
      db.vitals.filter (fun r => decide (vitalsKey r ≠ vitalsKey data)) ++ [data] }

/-- The `neg_keys` list of `_guess_ai_sentiment` (src/app.py:274). -/
def neg_keys : List String :=
  ["【特記事項】", "警告", "要観察", "急変", "不穏", "不眠", "転倒", "発熱",
   "spo2が低", "血圧が高", "血圧が低", "呼吸数が多", "活気なし", "傾眠",
   "興奮", "疼痛", "報告", "連絡"]

/-- The `pos_keys` list of `_guess_ai_sentiment` (src/app.py:294). -/
def pos_keys : List String :=
  ["安定", "問題ありません", "通常通り", "落ち着いて", "良眠", "完食", "服薬済"]

/-- `_guess_ai_sentiment` (src/app.py:272). -/
def _guess_ai_sentiment (text : String) : String :=
  let t := pyLower text
  if neg_keys.any (fun k => pyIn (pyLower k) t) then "negative"
  else if pos_keys.any (fun k => pyIn (pyLower k) t) then "positive"
  else "neutral"

/-- `add_progress_log` (src/app.py:302), post-migration branch (both
`ai_sentiment` and `staff_name` columns exist).  A `none` sentiment is
replaced by `_guess_ai_sentiment text`; the row is appended with a fresh
autoincrement id.  The Python function performs no validation. -/
def add_progress_log (resident_id : ℤ) (ymd slot hm ts text staff_name : String)
    (ai_sentiment : Option String) (db : DB) : DB :=
  let senti := match ai_sentiment with
    | none => _guess_ai_sentiment text
    | some s => s
  { db with
    support_logs := db.support_logs ++
      [{ id := db.next_support_id, resident_id := resident_id, ymd := ymd
         slot := slot, hm := hm, ts := ts, text := text
         ai_sentiment := senti, staff_name := staff_name }]
    next_support_id := db.next_support_id + 1 }

/-- `add_handover_note` (src/app.py:348), post-migration branch: appends a
row with `likes = 0` and a fresh autoincrement id, unconditionally — there
is no text or author validation and no duplicate detection. -/
def add_handover_note (ymd slot hm ts text level staff_name : String) (db : DB) : DB :=
  { db with
    handover_notes := db.handover_notes ++
      [{ id := db.next_handover_id, ymd := ymd, slot := slot, hm := hm
         ts := ts, text := text, level := level, likes := 0
         staff_name := staff_name }]
    next_handover_id := db.next_handover_id + 1 }

/-- `inc_handover_like` (src/app.py:373): `UPDATE handover_notes SET
likes = likes + 1 WHERE id = ?`. -/
def inc_handover_like (note_id : ℕ) (db : DB) : DB :=
  { db with handover_notes :=
      db.handover_notes.map (fun r =>
        if r.id = note_id then { r with likes := r.likes + 1 } else r) }

/-- `upsert_bath` (src/app.py:388), keyed on `(resident_id, ymd)`. -/
def upsert_bath (resident_id : ℤ) (ymd hm ts status staff_name : String) (db : DB) : DB :=
  { db with baths :=
      db.baths.filter (fun r => decide ((r.resident_id, r.ymd) ≠ (resident_id, ymd))) ++
        [{ resident_id := resident_id, ymd := ymd, hm := hm, ts := ts
           status := status, staff_name := staff_name }] }

/-- `upsert_meal` (src/app.py:411), keyed on `(resident_id, ymd, slot)`. -/
def upsert_meal (resident_id : ℤ) (ymd slot hm ts : String) (amount : ℤ)
    (staff_name : String) (db : DB) : DB :=
  { db with meals :=
      db.meals.filter (fun r => decide ((r.resident_id, r.ymd, r.slot) ≠ (resident_id, ymd, slot))) ++
        [{ resident_id := resident_id, ymd := ymd, slot := slot, hm := hm
           ts := ts, amount := amount, staff_name := staff_name }] }

/-- `upsert_meds` (src/app.py:434), keyed on `(resident_id, ymd, slot)`. -/
def upsert_meds (resident_id : ℤ) (ymd slot hm ts : String) (taken : ℤ)
    (staff_name : String) (db : DB) : DB :=
  { db with meds :=
      db.meds.filter (fun r => decide ((r.resident_id, r.ymd, r.slot) ≠ (resident_id, ymd, slot))) ++
        [{ resident_id := resident_id, ymd := ymd, slot := slot, hm := hm
           ts := ts, taken := taken, staff_name := staff_name }] }

/-- `upsert_patrol` (src/app.py:457), keyed on `(resident_id, ymd, round)`. -/
def upsert_patrol (resident_id : ℤ) (ymd round_name hm ts state : String)
    (safety_ok : ℤ) (staff_name : String) (db : DB) : DB :=
  { db with patrols :=
      db.patrols.filter (fun r => decide ((r.resident_id, r.ymd, r.round) ≠ (resident_id, ymd, round_name))) ++
        [{ resident_id := resident_id, ymd := ymd, round := round_name, hm := hm
           ts := ts, state := state, safety_ok := safety_ok, staff_name := staff_name }] }

/-- The residents seeding step of `init_db_if_needed` (src/app.py:230):
`INSERT OR REPLACE` of the `RESIDENTS` constant when fewer rows exist. -/
def seed_residents (db : DB) : DB :=
  if db.residents.length < RESIDENTS.length then
    let seeded := RESIDENTS.foldl
      (fun acc r => acc.filter (fun x => decide (x.id ≠ r.id)) ++ [r]) db.residents
    { db with residents := seeded }
  else db

/-! ### Advice / report generation (src/app.py:626-783) -/

/-- The previous-vitals tuple returned by `get_prev_vitals` (src/app.py:480):
`(temperature, bp_high, bp_low, pulse, spo2, respiration, condition)`. -/
structure PrevVitals where
  temperature : ℚ
  bp_high : ℤ
  bp_low : ℤ
  pulse : ℤ
  spo2 : ℤ
  respiration : ℤ
  condition : String
deriving DecidableEq

structure Diffs where
  temp : ℚ
  bh : ℤ
  bl : ℤ
  pulse : ℤ
  spo2 : ℤ
  rr : ℤ
  cond_changed : ℤ
deriving DecidableEq

structure Advice where
  summary : String
  detail : String
  flags : List String
  diffs : Diffs
deriving DecidableEq

/-- `advice_from_vitals` (src/app.py:626).  The imperative `warn`, `watch`,
`obs` and `flags` list appends are translated to list concatenations in the
source's execution order; Python `if`/`elif` chains become nested `if`s. -/
def advice_from_vitals (v : VitalsRow) (prev_row : Option PrevVitals) : Advice :=
  let temp := v.temperature
  let bh := v.bp_high
  let bl := v.bp_low
  let pulse := v.pulse
  let spo2 := v.spo2
  let rr := v.respiration
  let cond := v.condition
  let diffs : Diffs :=
    match prev_row with
    | some p =>
        { temp := temp - p.temperature, bh := bh - p.bp_high, bl := bl - p.bp_low
          pulse := pulse - p.pulse, spo2 := spo2 - p.spo2, rr := rr - p.respiration
          cond_changed := if p.condition ≠ cond then 1 else 0 }
    | none =>
        { temp := 0, bh := 0, bl := 0, pulse := 0, spo2 := 0, rr := 0, cond_changed := 0 }
  let warn : List String :=
    (if spo2 ≤ 93 then ["SpO2が低め（≤93%）。呼吸状態の再評価、体位調整、報告検討。"] else []) ++
    (match prev_row with
     | some _ =>
         (if diffs.bh ≥ 20 then ["前回比：血圧（上）が急上昇（" ++ _format_delta_int diffs.bh "" ++ "）。再測定推奨。"] else []) ++
         (if diffs.bh ≤ -20 then ["前回比：血圧（上）が急低下（" ++ _format_delta_int diffs.bh "" ++ "）。転倒注意。"] else []) ++
         (if diffs.temp ≥ 1 then ["前回比：体温が急上昇（" ++ _format_delta diffs.temp "℃" ++ "）。感染兆候に注意。"] else []) ++
         (if diffs.spo2 ≤ -3 then ["前回比：SpO2が低下（" ++ _format_delta_int diffs.spo2 "%" ++ "）。呼吸状態再評価。"] else [])
     | none => [])
  let watch : List String :=
    (if spo2 ≤ 93 then [] else if spo2 ≤ 95 then ["SpO2やや低め（94-95%）。訴え/体位の確認、経過観察。"] else []) ++
    (if bh ≥ 160 ∨ bl ≥ 100 then ["血圧高め。頭痛/嘔気/興奮/不安など確認。"]
     else if bh ≤ 90 ∨ bl ≤ 60 then ["血圧低め。起立性低血圧・転倒に注意。"] else []) ++
    (if temp ≥ 37.5 then ["発熱傾向。水分・安静、症状観察、必要時報告。"]
     else if temp ≤ 35.5 then ["体温低め。保温・循環/栄養状態に留意。"] else []) ++
    (if pulse ≥ 110 then ["脈拍速め。不安/疼痛/発熱/脱水/興奮の可能性。"]
     else if pulse ≤ 45 then ["脈拍遅め。めまい/失神/冷汗に注意。"] else []) ++
    (if rr ≥ 26 then ["呼吸数多め。苦しさやSpO2低下があれば早めに報告。"] else []) ++
    (match prev_row with
     | some _ =>
         if diffs.cond_changed = 1 then ["前回比：意識・活気が変化。普段との差を具体化して記録。"] else []
     | none => [])
  let obs : List String :=
    if cond = "活気なし" ∨ cond = "傾眠" then
      ["観察：呼名反応、表情、会話量、歩行ふらつき、食欲/水分、睡眠量。",
       "対応：訪室頻度UP、転倒リスク注意、必要時に報告。"]
    else if cond = "興奮" ∨ cond = "不穏" then
      ["観察：刺激要因、訴え、環境（騒音/照明）、対人トラブル兆候。",
       "対応：安心確保、声かけ簡潔、危険物/転倒リスク確認、必要時報告。"]
    else if cond = "疼痛疑い" then
      ["観察：痛み部位/表情、動作時の嫌がり、発汗、バイタル変動。",
       "対応：無理な動作回避、体位調整、報告検討。"]
    else
      ["観察：普段通りか（表情/会話/睡眠/訴え）、転倒リスク、服薬・水分状況。"]
  let flags : List String :=
    (if warn.length ≥ 1 then ["watch"] else []) ++
    (if spo2 ≤ 92 ∨ (temp ≥ 38.5 ∧ (cond = "活気なし" ∨ cond = "傾眠")) then ["urgent"] else [])
  let summary : String :=
    if warn = [] ∧ watch = [] then "全体的に安定。通常通りの見守りでOK。"
    else
      let top : List String :=
        if warn ≠ [] then ["要注意：" ++ warn.headI]
        else if watch ≠ [] then ["観察：" ++ watch.headI] else []
      let top := top ++ (if top.length < 2 ∧ watch ≠ [] then ["観察：" ++ watch.headI] else [])
      String.intercalate " / " (top.take 2)
  let lines : List String :=
    (if warn ≠ [] then "【注意/警告】" :: (warn.take 4).map (fun s => "- " ++ s) else []) ++
    (if watch ≠ [] then "【要観察】" :: (watch.take 4).map (fun s => "- " ++ s) else []) ++
    (if obs ≠ [] then "【観察ポイント】" :: (obs.take 4).map (fun s => "- " ++ s) else [])
  let detail : String :=
    if lines ≠ [] then pyStrip (String.intercalate "\n" lines)
    else "全体的に安定。通常通りの見守りでOK。"
  { summary := summary, detail := detail, flags := flags, diffs := diffs }

/-- `build_admin_report` (src/app.py:738). -/
def build_admin_report (staff_name resident_name resident_code : String)
    (payload : VitalsRow) (prev_row : Option PrevVitals) (advice : Advice) : String :=
  let slot := payload.slot
  let hm := payload.hm
  let ymd := payload.ymd
  let diff_str : String :=
    match prev_row with
    | some p =>
        let dcond := if p.condition ≠ payload.condition then "(変化あり)" else ""
        pyStrip ("体温" ++ _format_delta (payload.temperature - p.temperature) "℃" ++ " / " ++
          "血圧上" ++ _format_delta_int (payload.bp_high - p.bp_high) "" ++
          "・下" ++ _format_delta_int (payload.bp_low - p.bp_low) "" ++ " / " ++
          "脈拍" ++ _format_delta_int (payload.pulse - p.pulse) "" ++ " / " ++
          "SpO2" ++ _format_delta_int (payload.spo2 - p.spo2) "%" ++ " / " ++
          "呼吸" ++ _format_delta_int (payload.respiration - p.respiration) "" ++ " " ++ dcond)
    | none => "前回データなし"
  let urgency := if "urgent" ∈ advice.flags then "【至急】" else "【報告】"
  let staff := if pyStrip staff_name ≠ "" then staff_name else "(未選択)"
  let text :=
    urgency ++ " バイタル共有（" ++ resident_name ++ "：" ++ resident_code ++ "）\n" ++
    "- 記録者：" ++ staff ++ "\n" ++
    "- 日時：" ++ ymd ++ " " ++ hm ++ "（" ++ slot ++ "）\n" ++
    "- バイタル：体温" ++ format_1f payload.temperature ++ "℃ / 血圧" ++
      toString payload.bp_high ++ "/" ++ toString payload.bp_low ++ " / " ++
    "脈拍" ++ toString payload.pulse ++ " / SpO2" ++ toString payload.spo2 ++
      "% / 呼吸" ++ toString payload.respiration ++ "\n" ++
    "- 意識・活気：" ++ payload.condition ++ "\n" ++
    "- 前回比：" ++ diff_str ++ "\n" ++
    "\n" ++
    "■所見まとめ\n" ++ advice.summary ++ "\n" ++
    "\n" ++
    "■観察・対応案\n" ++ advice.detail ++ "\n" ++
    "\n" ++
    "■お願い\n" ++
    "- 追加観察/再測定のタイミング、医療連携/家族連絡の要否をご指示ください。\n"
  pyStrip text

/-! ### UI flows built from the store operations -/

def insertTsDesc (a : HandoverNoteRow) : List HandoverNoteRow → List HandoverNoteRow
  | [] => [a]
  | x :: xs => if pyStrLt a.ts x.ts then x :: insertTsDesc a xs else a :: x :: xs

/-- Stable sort by `ts` descending, modelling `ORDER BY ts DESC`. -/
def sortTsDesc (l : List HandoverNoteRow) : List HandoverNoteRow :=
  l.foldr insertTsDesc []

/-- The query of `reload` in `view_handover` (src/app.py:1379): selects all
handover notes — there is no date, unit or deletion filter (none of those
exist in the schema) — ordered by `ts` descending, `LIMIT 80`. -/
def view_handover_reload (db : DB) : List HandoverNoteRow :=
  (sortTsDesc db.handover_notes).take 80

/-- `save_note` of `view_handover` (src/app.py:1454): returns early (only a
snackbar, nothing persisted) when the trimmed text is empty, otherwise
inserts the trimmed text at level "normal".  The Bool records whether a row
was inserted. -/
def view_handover_save_note (tf_value slot_value staff ymd hm ts : String)
    (db : DB) : DB × Bool :=
  if pyStrip tf_value = "" then (db, false)
  else (add_handover_note ymd slot_value hm ts (pyStrip tf_value) "normal" staff db, true)

/-- The `save` handler of `view_vitals` (src/app.py:2321-2417): computes the
advice, upserts the vitals row, appends a progress log, and — when the
"urgent" flag is present — auto-appends a handover note at level "urgent".
The previous-vitals row (`get_prev_vitals`) and the clock strings are
explicit arguments. -/
def view_vitals_save (r_name r_code : String) (payload : VitalsRow)
    (prev : Option PrevVitals) (db : DB) : DB :=
  let adv := advice_from_vitals payload prev
  let db1 := upsert_vitals payload db
  let diff_str : String :=
    match prev with
    | some p =>
        "体温" ++ _format_delta (payload.temperature - p.temperature) "℃" ++ " / " ++
        "血圧上" ++ _format_delta_int (payload.bp_high - p.bp_high) "" ++
        "・下" ++ _format_delta_int (payload.bp_low - p.bp_low) "" ++ " / " ++
        "脈拍" ++ _format_delta_int (payload.pulse - p.pulse) "" ++ " / " ++
        "SpO2" ++ _format_delta_int (payload.spo2 - p.spo2) "%" ++ " / " ++
        "呼吸" ++ _format_delta_int (payload.respiration - p.respiration) ""
    | none => "前回データなし"
  let trans :=
    "【バイタル】" ++ payload.slot ++ " " ++ payload.hm ++ "：" ++
    "体温" ++ format_1f payload.temperature ++ "℃、" ++
    "血圧" ++ toString payload.bp_high ++ "/" ++ toString payload.bp_low ++ "、" ++
    "脈拍" ++ toString payload.pulse ++ "、" ++
    "SpO2 " ++ toString payload.spo2 ++ "%、" ++
    "呼吸" ++ toString payload.respiration ++ "。" ++
    "意識状態：" ++ payload.condition ++ "。"
  let full := trans ++ "\n" ++ "【前回比】" ++ diff_str ++ "\n" ++
    "【AIアドバイス（プロトタイプ）】" ++ "\n" ++ adv.detail
  let senti : Option String :=
    if "urgent" ∈ adv.flags ∨ "watch" ∈ adv.flags then some "negative" else none
  let db2 := add_progress_log payload.resident_id payload.ymd payload.slot
    payload.hm payload.ts full payload.staff_name senti db1
  let report := build_admin_report payload.staff_name r_name r_code payload prev adv
  if "urgent" ∈ adv.flags then
    add_handover_note payload.ymd payload.slot payload.hm payload.ts
      ("【至急】（自動）\n" ++ report) "urgent" payload.staff_name db2
  else db2

/-- `save_special` (src/app.py:1948): rejects empty trimmed text, otherwise
writes a progress log and a handover note at level "special". -/
def save_special (text_value : String) (rid : ℤ)
    (resident_name ymd slot hm ts staff : String) (db : DB) : DB × Bool :=
  let text := pyStrip text_value
  if text = "" then (db, false)
  else
    let db1 := add_progress_log rid ymd slot hm ts ("【特記事項】" ++ text) staff (some "negative") db
    let db2 := add_handover_note ymd slot hm ts ("【特記事項】" ++ resident_name ++ "：" ++ text) "special" staff db1
    (db2, true)

/-! ### The complete set of database-writing operations of the source -/

/-- Every function in src/app.py that writes the database (the 8 store
mutators, the residents seeding of `init_db_if_needed`, and the composite
UI save handlers, which only call those mutators). -/
inductive Op where
  | upsertVitals (data : VitalsRow)
  | addProgressLog (resident_id : ℤ) (ymd slot hm ts text staff_name : String) (ai_sentiment : Option String)
  | addHandoverNote (ymd slot hm ts text level staff_name : String)
  | incHandoverLike (note_id : ℕ)
  | upsertBath (resident_id : ℤ) (ymd hm ts status staff_name : String)
  | upsertMeal (resident_id : ℤ) (ymd slot hm ts : String) (amount : ℤ) (staff_name : String)
  | upsertMeds (resident_id : ℤ) (ymd slot hm ts : String) (taken : ℤ) (staff_name : String)
  | upsertPatrol (resident_id : ℤ) (ymd round_name hm ts state : String) (safety_ok : ℤ) (staff_name : String)
  | seedResidents
  | saveNote (tf_value slot_value staff ymd hm ts : String)
  | vitalsSave (r_name r_code : String) (payload : VitalsRow) (prev : Option PrevVitals)
  | saveSpecial (text_value : String) (rid : ℤ) (resident_name ymd slot hm ts staff : String)

def Op.apply : Op → DB → DB
  | .upsertVitals data, db => upsert_vitals data db
  | .addProgressLog rid ymd slot hm ts text staff senti, db =>
      add_progress_log rid ymd slot hm ts text staff senti db
  | .addHandoverNote ymd slot hm ts text level staff, db =>
      add_handover_note ymd slot hm ts text level staff db
  | .incHandoverLike nid, db => inc_handover_like nid db
  | .upsertBath rid ymd hm ts status staff, db => upsert_bath rid ymd hm ts status staff db
  | .upsertMeal rid ymd slot hm ts amount staff, db => upsert_meal rid ymd slot hm ts amount staff db
  | .upsertMeds rid ymd slot hm ts taken staff, db => upsert_meds rid ymd slot hm ts taken staff db
  | .upsertPatrol rid ymd rnd hm ts st ok staff, db => upsert_patrol rid ymd rnd hm ts st ok staff db
  | .seedResidents, db => seed_residents db
  | .saveNote tf slotv staff ymd hm ts, db => (view_handover_save_note tf slotv staff ymd hm ts db).1
  | .vitalsSave rn rc payload prev, db => view_vitals_save rn rc payload prev db
  | .saveSpecial tv rid rn ymd slot hm ts staff, db => (save_special tv rid rn ymd slot hm ts staff db).1

/-! ### Concrete example data used by witnesses and counterexamples -/

/-- A vitals payload whose SpO2 (90 ≤ 92) makes the advice urgent. -/
def exVitalsUrgent : VitalsRow :=
  { resident_id := 1, ymd := "2024-05-01", slot := "朝", hm := "09:00"
    ts := "2024-05-01T09:00:00", temperature := 36.5, bp_high := 120, bp_low := 70
    pulse := 70, spo2 := 90, respiration := 16, condition := "いつも通り"
    staff_name := "職員01" }

/-- An unremarkable vitals payload (no urgent condition). -/
def calmVitals : VitalsRow :=
  { resident_id := 2, ymd := "2024-05-01", slot := "朝", hm := "09:00"
    ts := "2024-05-01T09:00:00", temperature := 36.5, bp_high := 120, bp_low := 70
    pulse := 70, spo2 := 97, respiration := 16, condition := "いつも通り"
    staff_name := "職員01" }

/-- A second save of the same vitals record (same primary key, later time). -/
def calmVitals2 : VitalsRow :=
  { calmVitals with hm := "09:30", ts := "2024-05-01T09:30:00" }

def febrileVitals : VitalsRow :=
  { resident_id := 3, ymd := "2024-05-02", slot := "夕", hm := "18:00"
    ts := "2024-05-02T18:00:00", temperature := 38.0, bp_high := 130, bp_low := 80
    pulse := 90, spo2 := 96, respiration := 18, condition := "いつも通り"
    staff_name := "職員02" }

def febrileVitals2 : VitalsRow :=
  { febrileVitals with hm := "18:10", ts := "2024-05-02T18:10:00" }

def noteA : HandoverNoteRow :=
  { id := 1, ymd := "2024-05-01", slot := "朝", hm := "09:00"
    ts := "2024-05-01T09:00:00", text := "夜間巡視異常なし", level := "normal"
    likes := 0, staff_name := "職員01" }

def noteB : HandoverNoteRow :=
  { id := 2, ymd := "2024-05-02", slot := "夕", hm := "18:00"
    ts := "2024-05-02T18:00:00", text := "発熱傾向あり", level := "normal"
    likes := 0, staff_name := "職員02" }

def oneNoteDB : DB := { emptyDB with handover_notes := [noteA], next_handover_id := 2 }

def twoDateDB : DB := { emptyDB with handover_notes := [noteA, noteB], next_handover_id := 3 }

def logRow : SupportLogRow :=
  { id := 1, resident_id := 1, ymd := "2024-05-01", slot := "朝", hm := "09:00"
    ts := "2024-05-01T09:00:00", text := "安定しています", ai_sentiment := "positive"
    staff_name := "職員01" }

def oneLogDB : DB := { emptyDB with support_logs := [logRow], next_support_id := 2 }

/-- Row `s` coincides with row `r` on every column except that its likes
counter may have been incremented once. -/
def LikeBump (s r : HandoverNoteRow) : Prop :=
  s.id = r.id ∧ s.ymd = r.ymd ∧ s.slot = r.slot ∧ s.hm = r.hm ∧ s.ts = r.ts ∧
  s.text = r.text ∧ s.level = r.level ∧ s.staff_name = r.staff_name ∧
  (s.likes = r.likes ∨ s.likes = r.likes + 1)

/-! ### Order lemmas for the codepoint comparison backing `ORDER BY ts DESC` -/

theorem charListLt_irrefl : ∀ l : List Char, charListLt l l = false
  | [] => rfl
  | a :: as => by
      simp only [charListLt, charListLt_irrefl as, Bool.and_false, Bool.or_false]
      exact decide_eq_false (lt_irrefl a)

theorem charListLt_trans : ∀ (a b c : List Char),
    charListLt a b = true → charListLt b c = true → charListLt a c = true := by
  intro a
  induction a with
  | nil =>
      intro b c h1 h2
      cases b with
      | nil => simp [charListLt] at h1
      | cons hb tb =>
          cases c with
          | nil => simp [charListLt] at h2
          | cons hc tc => simp [charListLt]
  | cons ha ta ih =>
      intro b c h1 h2
      cases b with
      | nil => simp [charListLt] at h1
      | cons hb tb =>
          cases c with
          | nil => simp [charListLt] at h2
          | cons hc tc =>
              simp only [charListLt, Bool.or_eq_true, Bool.and_eq_true,
                decide_eq_true_eq, beq_iff_eq] at h1 h2 ⊢
              rcases h1 with h1 | ⟨hab, h1t⟩
              · rcases h2 with h2 | ⟨hbc, _⟩
                · exact Or.inl (lt_trans h1 h2)
                · subst hbc; exact Or.inl h1
              · subst hab
                rcases h2 with h2 | ⟨hbc, h2t⟩
                · exact Or.inl h2
                · subst hbc; exact Or.inr ⟨rfl, ih tb tc h1t h2t⟩

theorem charListLt_neg_trans : ∀ (a b c : List Char),
    charListLt a b = false → charListLt b c = false → charListLt a c = false := by
  intro a
  induction a with
  | nil =>
      intro b c h1 h2
      cases b with
      | nil =>
          cases c with
          | nil => rfl
          | cons hc tc => simp [charListLt] at h2
      | cons hb tb => simp [charListLt] at h1
  | cons ha ta ih =>
      intro b c h1 h2
      cases c with
      | nil => rfl
      | cons hc tc =>
          cases b with
          | nil => simp [charListLt] at h2
          | cons hb tb =>
              simp only [charListLt, Bool.or_eq_false_iff, Bool.and_eq_false_iff,
                decide_eq_false_iff_not, beq_eq_false_iff_ne, ne_eq] at h1 h2 ⊢
              obtain ⟨hab, h1r⟩ := h1
              obtain ⟨hbc, h2r⟩ := h2
              constructor
              · intro hac
                rcases lt_trichotomy ha hb with hx | hx | hx
                · exact hab hx
                · subst hx; exact hbc hac
                · exact hbc (lt_trans hx hac)
              · by_cases hac : ha = hc
                · right
                  have hba : hb ≤ ha := le_of_not_lt hab
                  have hcb : hc ≤ hb := le_of_not_lt hbc
                  have hb_eq : hb = ha := le_antisymm hba (hac ▸ hcb)
                  rcases h1r with h1r | h1r
                  · exact absurd hb_eq.symm h1r
                  · rcases h2r with h2r | h2r
                    · exact absurd (hb_eq.trans hac) h2r
                    · exact ih tb tc h1r h2r
                · exact Or.inl hac

theorem charListLt_asymm (a b : List Char) (h : charListLt a b = true) :
    charListLt b a = false := by
  cases hba : charListLt b a with
  | false => rfl
  | true =>
      have h2 := charListLt_trans a b a h hba
      rw [charListLt_irrefl] at h2
      exact (Bool.false_ne_true h2).elim

theorem pyStrLt_neg_trans (a b c : String) (h1 : pyStrLt a b = false)
    (h2 : pyStrLt b c = false) : pyStrLt a c = false :=
  charListLt_neg_trans _ _ _ h1 h2

theorem pyStrLt_asymm (a b : String) (h : pyStrLt a b = true) : pyStrLt b a = false :=
  charListLt_asymm _ _ h

/-! ### Lemmas about the `ORDER BY ts DESC` model -/

theorem mem_insertTsDesc (y a : HandoverNoteRow) : ∀ l : List HandoverNoteRow,
    (y ∈ insertTsDesc a l ↔ y = a ∨ y ∈ l)
  | [] => by simp [insertTsDesc]
  | x :: xs => by
      rw [insertTsDesc]
      split
      · rw [List.mem_cons, mem_insertTsDesc y a xs, List.mem_cons]
        tauto
      · simp only [List.mem_cons]

theorem pairwise_insertTsDesc (a : HandoverNoteRow) (l : List HandoverNoteRow)
    (h : l.Pairwise (fun x y => pyStrLt x.ts y.ts = false)) :
    (insertTsDesc a l).Pairwise (fun x y => pyStrLt x.ts y.ts = false) := by
  induction l with
  | nil => simp [insertTsDesc]
  | cons x xs ih =>
      rw [List.pairwise_cons] at h
      obtain ⟨hx, hxs⟩ := h
      rw [insertTsDesc]
      split
      · case isTrue hax =>
          rw [List.pairwise_cons]
          refine ⟨?_, ih hxs⟩
          intro y hy
          rcases (mem_insertTsDesc y a xs).mp hy with rfl | hy
          · exact pyStrLt_asymm _ _ hax
          · exact hx y hy
      · case isFalse hax =>
          have hax' : pyStrLt a.ts x.ts = false := by
            cases hv : pyStrLt a.ts x.ts with
            | false => rfl
            | true => exact absurd hv hax
          rw [List.pairwise_cons]
          refine ⟨?_, List.pairwise_cons.mpr ⟨hx, hxs⟩⟩
          intro y hy
          rcases List.mem_cons.mp hy with rfl | hy
          · exact hax'
          · exact pyStrLt_neg_trans _ _ _ hax' (hx y hy)

theorem sorted_sortTsDesc (l : List HandoverNoteRow) :
    (sortTsDesc l).Pairwise (fun x y => pyStrLt x.ts y.ts = false) := by
  induction l with
  | nil => simp [sortTsDesc]
  | cons x xs ih =>
      rw [sortTsDesc, List.foldr_cons]
      exact pairwise_insertTsDesc x _ ih

theorem mem_sortTsDesc (y : HandoverNoteRow) (l : List HandoverNoteRow) :
    y ∈ sortTsDesc l ↔ y ∈ l := by
  induction l with
  | nil => simp [sortTsDesc]
  | cons x xs ih =>
      rw [sortTsDesc, List.foldr_cons, mem_insertTsDesc, List.mem_cons]
      rw [sortTsDesc] at ih
      rw [ih]

theorem length_insertTsDesc (a : HandoverNoteRow) : ∀ l : List HandoverNoteRow,
    (insertTsDesc a l).length = l.length + 1
  | [] => rfl
  | x :: xs => by
      rw [insertTsDesc]
      split
      · simp [length_insertTsDesc a xs]
      · simp

theorem length_sortTsDesc (l : List HandoverNoteRow) :
    (sortTsDesc l).length = l.length := by
  induction l with
  | nil => rfl
  | cons x xs ih =>
      rw [sortTsDesc, List.foldr_cons, length_insertTsDesc]
      rw [sortTsDesc] at ih
      rw [ih, List.length_cons]

/-! ### Lemmas about the vitals save flow -/

theorem view_vitals_save_handover_len (r_name r_code : String) (payload : VitalsRow)
    (prev : Option PrevVitals) (db : DB) :
    (view_vitals_save r_name r_code payload prev db).handover_notes.length =
      db.handover_notes.length +
        (if "urgent" ∈ (advice_from_vitals payload prev).flags then 1 else 0) := by
  simp only [view_vitals_save]
  split
  · case isTrue h => simp [h, add_handover_note, add_progress_log, upsert_vitals]
  · case isFalse h => simp [h, add_progress_log, upsert_vitals]

theorem view_vitals_save_handover_sub (r_name r_code : String) (payload : VitalsRow)
    (prev : Option PrevVitals) (db : DB) (r : HandoverNoteRow)
    (hr : r ∈ db.handover_notes) :
    r ∈ (view_vitals_save r_name r_code payload prev db).handover_notes := by
  simp only [view_vitals_save]
  split
  · simp only [add_handover_note, add_progress_log, upsert_vitals, List.mem_append]
    exact Or.inl hr
  · simpa [add_progress_log, upsert_vitals] using hr

theorem view_vitals_save_support_sub (r_name r_code : String) (payload : VitalsRow)
    (prev : Option PrevVitals) (db : DB) (r : SupportLogRow)
    (hr : r ∈ db.support_logs) :
    r ∈ (view_vitals_save r_name r_code payload prev db).support_logs := by
  simp only [view_vitals_save]
  split <;>
    · simp only [add_handover_note, add_progress_log, upsert_vitals, List.mem_append]
      exact Or.inl hr

theorem view_vitals_save_urgent_level (r_name r_code : String) (payload : VitalsRow)
    (prev : Option PrevVitals) (db : DB)
    (h : "urgent" ∈ (advice_from_vitals payload prev).flags) :
    ((view_vitals_save r_name r_code payload prev db).handover_notes.getLast?).map
      (fun r => r.level) = some "urgent" := by
  simp only [view_vitals_save]
  rw [if_pos h]
  simp [add_handover_note, List.getLast?_concat]

/-- The "urgent" flag of `advice_from_vitals` is present exactly under the
condition at src/app.py:705. -/
theorem urgent_flag_iff (v : VitalsRow) (prev : Option PrevVitals) :
    ("urgent" ∈ (advice_from_vitals v prev).flags ↔
      (v.spo2 ≤ 92 ∨ (v.temperature ≥ 38.5 ∧ (v.condition = "活気なし" ∨ v.condition = "傾眠")))) := by
  by_cases hc : v.spo2 ≤ 92 ∨ (v.temperature ≥ 38.5 ∧ (v.condition = "活気なし" ∨ v.condition = "傾眠"))
  · simp [advice_from_vitals, hc]
  · simp only [advice_from_vitals, hc, if_false, List.append_nil, iff_false]
    intro h
    split at h
    · simp at h
    · simp at h

/-! ### Lemmas about the likes counter -/

theorem likes_sum_map_inc (note_id : ℕ) (l : List HandoverNoteRow) :
    ((l.map (fun r => if r.id = note_id then { r with likes := r.likes + 1 } else r)).map
        (fun r => r.likes)).sum =
      (l.map (fun r => r.likes)).sum +
        ((l.filter (fun r => decide (r.id = note_id))).length : ℤ) := by
  induction l with
  | nil => simp
  | cons r l ih =>
      rw [List.map_map] at ih ⊢
      by_cases h : r.id = note_id <;>
        simp [h, ih, List.filter_cons] <;> omega

theorem filter_id_map_inc (note_id : ℕ) (l : List HandoverNoteRow) :
    ((l.map (fun r => if r.id = note_id then { r with likes := r.likes + 1 } else r)).filter
        (fun r => decide (r.id = note_id))).length =
      (l.filter (fun r => decide (r.id = note_id))).length := by
  induction l with
  | nil => rfl
  | cons r l ih =>
      by_cases h : r.id = note_id <;> simp [h, ih, List.filter_cons]

/-! ### Claim C1 -/

/-- C1 (counterexample): two vitals saves of the same source record — both
writes target the identical primary key `(resident_id, ymd, slot)`, leaving
a single vitals row — create one auto-propagated handover note each, so two
handover entries reference the same source record; `add_handover_note` has
no duplicate detection and no null return.  This refutes "at most one
HandoverEntry ever references a given source Record". -/
theorem C1_counterexample :
    (view_vitals_save "利用者 B" "B" exVitalsUrgent none
        (view_vitals_save "利用者 B" "B" exVitalsUrgent none emptyDB)).handover_notes.length = 2 ∧
    (view_vitals_save "利用者 B" "B" exVitalsUrgent none emptyDB).vitals.length = 1 ∧
    (view_vitals_save "利用者 B" "B" exVitalsUrgent none
        (view_vitals_save "利用者 B" "B" exVitalsUrgent none emptyDB)).vitals.length = 1 := by
  decide

/-- C1 (amended): each urgent vitals save unconditionally appends exactly
one handover note, so n save attempts for the same source record create n
handover entries — there is no at-most-once propagation and no null return
on duplicates. -/
theorem C1_amended_theorem (r_name r_code : String) (payload : VitalsRow)
    (prev : Option PrevVitals) (db : DB)
    (h : "urgent" ∈ (advice_from_vitals payload prev).flags) :
    ((view_vitals_save r_name r_code payload prev db).handover_notes.length =
        db.handover_notes.length + 1) ∧
    (∀ n : ℕ,
      ((fun d => view_vitals_save r_name r_code payload prev d)^[n] db).handover_notes.length =
        db.handover_notes.length + n) := by
  have hstep : ∀ d : DB,
      (view_vitals_save r_name r_code payload prev d).handover_notes.length =
        d.handover_notes.length + 1 := by
    intro d
    rw [view_vitals_save_handover_len, if_pos h]
  refine ⟨hstep db, ?_⟩
  intro n
  induction n generalizing db with
  | zero => simp
  | succ n ih =>
      rw [Function.iterate_succ_apply, ih (view_vitals_save r_name r_code payload prev db),
        hstep db]
      omega

/-- C1 witness: the amended theorem applied to the urgent payload, twice
from the empty store. -/
theorem C1_amended_witness :
    ("urgent" ∈ (advice_from_vitals exVitalsUrgent none).flags) ∧
    ((fun d => view_vitals_save "利用者 B" "B" exVitalsUrgent none d)^[2] emptyDB).handover_notes.length =
      emptyDB.handover_notes.length + 2 :=
  ⟨by decide, ( C1_amended_theorem "利用者 B" "B" exVitalsUrgent none emptyDB (by decide)).2 2⟩

/-! ### Claim C2 -/

/-- C2 (counterexample): performing the acknowledgement action twice on the
same entry does not return the system to the prior state — the like count
goes from 0 to 2.  This refutes "the toggle is an involution". -/
theorem C2_counterexample :
    (inc_handover_like 1 (inc_handover_like 1 oneNoteDB)).handover_notes.map (fun r => r.likes) = [2] ∧
    oneNoteDB.handover_notes.map (fun r => r.likes) = [0] := by
  decide

/-- C2 (amended): the acknowledgement action is a plain counter increment,
not a toggle — applying `inc_handover_like` twice adds exactly 2 to the
matching entry's likes counter and leaves every other column and row
unchanged. -/
theorem C2_amended_theorem (db : DB) (note_id : ℕ) :
    (inc_handover_like note_id (inc_handover_like note_id db)).handover_notes =
      db.handover_notes.map
        (fun r => if r.id = note_id then { r with likes := r.likes + 2 } else r) := by
  simp only [inc_handover_like, List.map_map]
  refine List.map_congr_left ?_
  intro r _
  by_cases h : r.id = note_id <;> simp [h, Function.comp, add_assoc]

/-! ### Claim C3 -/

/-- C3 (counterexample): three acknowledgement actions by the same person
on the same entry accumulate to a like count of 3 — the store keeps no
per-person mark, so nothing bounds the count at one per (entry, person,
mark type). This refutes "at most one mark per (entry, person, mark type);
repeated actions never accumulate". -/
theorem C3_counterexample :
    ((inc_handover_like 1)^[3] oneNoteDB).handover_notes.map (fun r => r.likes) = [3] ∧
    oneNoteDB.handover_notes.map (fun r => r.likes) = [0] := by
  decide

/-- C3 (amended): the store keeps only an anonymous aggregate likes counter
per entry (no person name, no per-mark timestamp): n acknowledgement
actions add n to the total like count, once per matching row. -/
theorem C3_amended_theorem (db : DB) (note_id : ℕ) (n : ℕ) :
    (((inc_handover_like note_id)^[n] db).handover_notes.map (fun r => r.likes)).sum =
      (db.handover_notes.map (fun r => r.likes)).sum +
        (n : ℤ) * ((db.handover_notes.filter (fun r => decide (r.id = note_id))).length : ℤ) := by
  induction n generalizing db with
  | zero => simp
  | succ n ih =>
      rw [Function.iterate_succ_apply, ih (inc_handover_like note_id db)]
      have h1 : ((inc_handover_like note_id db).handover_notes.map (fun r => r.likes)).sum =
          (db.handover_notes.map (fun r => r.likes)).sum +
            ((db.handover_notes.filter (fun r => decide (r.id = note_id))).length : ℤ) := by
        simp only [inc_handover_like]
        exact likes_sum_map_inc note_id db.handover_notes
      have h2 : ((inc_handover_like note_id db).handover_notes.filter
            (fun r => decide (r.id = note_id))).length =
          (db.handover_notes.filter (fun r => decide (r.id = note_id))).length := by
        simp only [inc_handover_like]
        exact filter_id_map_inc note_id db.handover_notes
      rw [h1, h2]
      push_cast
      ring

/-! ### Claim C4 -/

/-- C4 (counterexample): saving with a blank author name is not rejected —
both `add_handover_note` and `add_progress_log` persist the row with
`staff_name = ""`.  This refutes "the store re-validates author-name
non-emptiness and rejects blank authors". -/
theorem C4_counterexample :
    (add_handover_note "2024-05-01" "朝" "09:00" "2024-05-01T09:00:00" "転倒がありました"
        "normal" "" emptyDB).handover_notes.map (fun r => (r.text, r.staff_name)) =
      [("転倒がありました", "")] ∧
    (add_progress_log 7 "2024-05-01" "朝" "09:00" "2024-05-01T09:00:00" "様子観察"
        "" none emptyDB).support_logs.map (fun r => (r.text, r.staff_name)) =
      [("様子観察", "")] := by
  decide

/-- C4 (amended): the store performs no author validation — a save with a
blank author name persists a new row whose `staff_name` column is the empty
string (the schema default), and existing rows are untouched. -/
theorem C4_amended_theorem (ymd slot hm ts text level : String) (rid : ℤ)
    (text2 : String) (senti : Option String) (db : DB) :
    ((add_handover_note ymd slot hm ts text level "" db).handover_notes.length =
        db.handover_notes.length + 1) ∧
    ((add_handover_note ymd slot hm ts text level "" db).handover_notes.getLast?.map
        (fun r => r.staff_name) = some "") ∧
    (∀ r ∈ db.handover_notes, r ∈ (add_handover_note ymd slot hm ts text level "" db).handover_notes) ∧
    ((add_progress_log rid ymd slot hm ts text2 "" senti db).support_logs.length =
        db.support_logs.length + 1) ∧
    ((add_progress_log rid ymd slot hm ts text2 "" senti db).support_logs.getLast?.map
        (fun r => r.staff_name) = some "") := by
  refine ⟨?_, ?_, ?_, ?_, ?_⟩
  · simp [add_handover_note]
  · simp [add_handover_note, List.getLast?_concat]
  · intro r hr
    simp only [add_handover_note, List.mem_append]
    exact Or.inl hr
  · simp [add_progress_log]
  · simp [add_progress_log, List.getLast?_concat]

/-- C4 witness: the amended theorem applied at a one-note store. -/
theorem C4_amended_witness :
    (noteA ∈ oneNoteDB.handover_notes) ∧
    (noteA ∈ (add_handover_note "2024-05-01" "夕" "18:00" "2024-05-01T18:00:00" "共有事項"
        "normal" "" oneNoteDB).handover_notes) :=
  ⟨by decide,
   ( C4_amended_theorem "2024-05-01" "夕" "18:00" "2024-05-01T18:00:00" "共有事項" "normal"
      7 "記録" none oneNoteDB).2.2.1 noteA (by decide)⟩

/-! ### Claim C5 -/

/-- C5 (counterexample): `upsert_vitals` is `INSERT OR REPLACE` — saving the
same record key twice leaves a single row holding the second save's values,
so the previously existing row was replaced, not preserved.  This refutes
"no previously existing record row is modified or replaced". -/
theorem C5_counterexample :
    (upsert_vitals calmVitals2 (upsert_vitals calmVitals emptyDB)).vitals.length = 1 ∧
    (upsert_vitals calmVitals2 (upsert_vitals calmVitals emptyDB)).vitals.map (fun r => r.ts) =
      ["2024-05-01T09:30:00"] ∧
    (upsert_vitals calmVitals emptyDB).vitals.map (fun r => r.ts) = ["2024-05-01T09:00:00"] := by
  decide

/-- C5 (amended): `add_progress_log` is insert-only — it appends one row
with the fresh autoincrement id (never colliding with an existing id, given
well-formed counters) and keeps every prior row; `upsert_vitals`, however,
preserves only the rows with a different `(resident_id, ymd, slot)` key and
replaces the row with the matching key by the new data. -/
theorem C5_amended_theorem (rid : ℤ) (ymd slot hm ts text staff : String)
    (senti : Option String) (data : VitalsRow) (db : DB) (hwf : DB.WF db) :
    ((add_progress_log rid ymd slot hm ts text staff senti db).support_logs.length =
        db.support_logs.length + 1) ∧
    (∀ r ∈ db.support_logs,
        r ∈ (add_progress_log rid ymd slot hm ts text staff senti db).support_logs) ∧
    ((add_progress_log rid ymd slot hm ts text staff senti db).support_logs.getLast?.map
        (fun r => r.id) = some db.next_support_id) ∧
    (∀ r ∈ db.support_logs, r.id ≠ db.next_support_id) ∧
    (∀ r ∈ db.vitals, vitalsKey r ≠ vitalsKey data → r ∈ (upsert_vitals data db).vitals) ∧
    (data ∈ (upsert_vitals data db).vitals) := by
  refine ⟨?_, ?_, ?_, ?_, ?_, ?_⟩
  · simp [add_progress_log]
  · intro r hr
    simp only [add_progress_log, List.mem_append]
    exact Or.inl hr
  · simp [add_progress_log, List.getLast?_concat]
  · intro r hr
    exact Nat.ne_of_lt (hwf.1 r hr)
  · intro r hr hkey
    simp only [upsert_vitals, List.mem_append, List.mem_filter]
    exact Or.inl ⟨hr, by simpa using hkey⟩
  · simp [upsert_vitals]

/-- C5 witness: the amended theorem applied at a well-formed one-log store. -/
theorem C5_amended_witness :
    DB.WF oneLogDB ∧ logRow ∈ oneLogDB.support_logs ∧
      logRow.id ≠ oneLogDB.next_support_id :=
  ⟨by exact ⟨by decide, by decide⟩, by decide,
   (C5_amended_theorem 7 "2024-05-01" "朝" "09:00" "2024-05-01T09:00:00" "経過記録" "職員01"
      none calmVitals oneLogDB (by exact ⟨by decide, by decide⟩)).2.2.2.1 logRow (by decide)⟩

/-! ### Claim C6 -/

/-- C6: a manual handover post whose text is empty after trimming is
rejected — the state is returned unchanged (only a snackbar is shown) and
no row is inserted; a post with non-empty trimmed text inserts exactly one
row carrying the trimmed text at level "normal". -/
theorem C6_theorem (tf_value slot_value staff ymd hm ts : String) (db : DB) :
    (pyStrip tf_value = "" →
      view_handover_save_note tf_value slot_value staff ymd hm ts db = (db, false)) ∧
    (pyStrip tf_value ≠ "" →
      (view_handover_save_note tf_value slot_value staff ymd hm ts db).2 = true ∧
      (view_handover_save_note tf_value slot_value staff ymd hm ts db).1.handover_notes.length =
        db.handover_notes.length + 1 ∧
      (view_handover_save_note tf_value slot_value staff ymd hm ts db).1.handover_notes.getLast?.map
        (fun r => (r.text, r.level, r.staff_name)) = some (pyStrip tf_value, "normal", staff)) := by
  constructor
  · intro h
    simp [view_handover_save_note, h]
  · intro h
    simp [view_handover_save_note, h, add_handover_note, List.getLast?_concat]

/-- C6 witness: scenario D — a whitespace-only post is rejected with the
store unchanged, and a non-blank post inserts one row. -/
theorem C6_witness :
    (pyStrip "  " = "") ∧
    (view_handover_save_note "  " "朝" "Nurse A" "2024-05-01" "09:00"
        "2024-05-01T09:00:00" twoDateDB = (twoDateDB, false)) ∧
    (pyStrip " 夜間は不穏、巡視増 " ≠ "") ∧
    ((view_handover_save_note " 夜間は不穏、巡視増 " "夕" "職員02" "2024-05-02" "18:30"
        "2024-05-02T18:30:00" twoDateDB).1.handover_notes.length =
      twoDateDB.handover_notes.length + 1) :=
  ⟨by decide,
   ( C6_theorem "  " "朝" "Nurse A" "2024-05-01" "09:00" "2024-05-01T09:00:00" twoDateDB).1
     (by decide),
   by decide,
   (( C6_theorem " 夜間は不穏、巡視増 " "夕" "職員02" "2024-05-02" "18:30" "2024-05-02T18:30:00"
      twoDateDB).2 (by decide)).2.1⟩

/-! ### Claim C7 -/

/-- C7 (counterexample): the handover listing query has no unit or date
parameter and no deletion filter — on a store holding notes dated
2024-05-01 and 2024-05-02 it returns both in one result, so for no date is
the result "exactly the entries of that unit and date". -/
theorem C7_counterexample :
    (view_handover_reload twoDateDB).map (fun r => r.ymd) = ["2024-05-02", "2024-05-01"] ∧
    (twoDateDB.handover_notes.filter (fun r => decide (r.ymd = "2024-05-01"))).length = 1 := by
  decide

/-- C7 (amended): the listing returns the newest at most 80 handover notes
of the whole store (all units and dates — no filter exists), ordered by
creation timestamp descending; every returned row is a stored row, and when
the store holds at most 80 notes every stored row is returned.  The model
is a pure function of the store, so repetition without writes is trivially
identical. -/
theorem C7_amended_theorem (db : DB) :
    ((view_handover_reload db).Pairwise (fun x y => pyStrLt x.ts y.ts = false)) ∧
    ((view_handover_reload db).length ≤ 80) ∧
    (∀ r, r ∈ view_handover_reload db → r ∈ db.handover_notes) ∧
    (db.handover_notes.length ≤ 80 →
      ∀ r, r ∈ db.handover_notes → r ∈ view_handover_reload db) := by
  refine ⟨?_, ?_, ?_, ?_⟩
  · rw [view_handover_reload]
    exact List.Pairwise.sublist (List.take_sublist _ _) (sorted_sortTsDesc _)
  · rw [view_handover_reload, List.length_take]
    exact min_le_left _ _
  · intro r hr
    rw [view_handover_reload] at hr
    exact (mem_sortTsDesc r _).mp ((List.take_sublist 80 _).subset hr)
  · intro hlen r hr
    rw [view_handover_reload, List.take_of_length_le]
    · exact (mem_sortTsDesc r _).mpr hr
    · rw [length_sortTsDesc]
      exact hlen

/-- C7 witness: the amended theorem applied at the two-date store. -/
theorem C7_amended_witness :
    (noteB ∈ view_handover_reload twoDateDB) ∧ (noteB ∈ twoDateDB.handover_notes) :=
  ⟨by decide, (C7_amended_theorem twoDateDB).2.2.1 noteB (by decide)⟩

/-! ### Claim C8 -/

/-- C8 (counterexample): a row is physically removed from the store —
`upsert_vitals` with an existing key deletes the old row (its timestamp is
gone from the table) instead of setting any flag; no soft-delete flag
exists in any schema.  This refutes "no record row is ever physically
removed — only its soft-delete flag is set". -/
theorem C8_counterexample :
    ("2024-05-02T18:00:00" ∈ (upsert_vitals febrileVitals emptyDB).vitals.map (fun r => r.ts)) ∧
    ("2024-05-02T18:00:00" ∉ (upsert_vitals febrileVitals2
        (upsert_vitals febrileVitals emptyDB)).vitals.map (fun r => r.ts)) := by
  decide

/-- C8 (amended): no delete operation of any kind exists — every
database-writing operation of the source preserves every progress-log row
verbatim and preserves every handover note on all columns except an
at-most-once likes increment; nothing sets any deletion flag (none exists).
The keyed tables (vitals etc.) are instead physically overwritten by
upserts, per the counterexample. -/
theorem C8_amended_theorem (op : Op) (db : DB) :
    (∀ r ∈ db.support_logs, r ∈ (op.apply db).support_logs) ∧
    (∀ r ∈ db.handover_notes, ∃ s ∈ (op.apply db).handover_notes, LikeBump s r) := by
  have lref : ∀ r : HandoverNoteRow, LikeBump r r :=
    fun r => ⟨rfl, rfl, rfl, rfl, rfl, rfl, rfl, rfl, Or.inl rfl⟩
  cases op with
  | upsertVitals data =>
      exact ⟨fun r hr => by simpa [Op.apply, upsert_vitals] using hr,
             fun r hr => ⟨r, by simpa [Op.apply, upsert_vitals] using hr, lref r⟩⟩
  | addProgressLog rid ymd slot hm ts text staff senti =>
      refine ⟨fun r hr => ?_, fun r hr => ⟨r, by simpa [Op.apply, add_progress_log] using hr, lref r⟩⟩
      simp only [Op.apply, add_progress_log, List.mem_append]
      exact Or.inl hr
  | addHandoverNote ymd slot hm ts text level staff =>
      refine ⟨fun r hr => by simpa [Op.apply, add_handover_note] using hr, fun r hr => ⟨r, ?_, lref r⟩⟩
      simp only [Op.apply, add_handover_note, List.mem_append]
      exact Or.inl hr
  | incHandoverLike nid =>
      refine ⟨fun r hr => by simpa [Op.apply, inc_handover_like] using hr, fun r hr => ?_⟩
      refine ⟨if r.id = nid then { r with likes := r.likes + 1 } else r, ?_, ?_⟩
      · simp only [Op.apply, inc_handover_like]
        exact List.mem_map_of_mem _ hr
      · by_cases h : r.id = nid <;> simp [h, LikeBump]
  | upsertBath rid ymd hm ts status staff =>
      exact ⟨fun r hr => by simpa [Op.apply, upsert_bath] using hr,
             fun r hr => ⟨r, by simpa [Op.apply, upsert_bath] using hr, lref r⟩⟩
  | upsertMeal rid ymd slot hm ts amount staff =>
      exact ⟨fun r hr => by simpa [Op.apply, upsert_meal] using hr,
             fun r hr => ⟨r, by simpa [Op.apply, upsert_meal] using hr, lref r⟩⟩
  | upsertMeds rid ymd slot hm ts taken staff =>
      exact ⟨fun r hr => by simpa [Op.apply, upsert_meds] using hr,
             fun r hr => ⟨r, by simpa [Op.apply, upsert_meds] using hr, lref r⟩⟩
  | upsertPatrol rid ymd rnd hm ts st ok staff =>
      exact ⟨fun r hr => by simpa [Op.apply, upsert_patrol] using hr,
             fun r hr => ⟨r, by simpa [Op.apply, upsert_patrol] using hr, lref r⟩⟩
  | seedResidents =>
      constructor
      · intro r hr
        simp only [Op.apply, seed_residents]
        split <;> simpa using hr
      · intro r hr
        refine ⟨r, ?_, lref r⟩
        simp only [Op.apply, seed_residents]
        split <;> simpa using hr
  | saveNote tf slotv staff ymd hm ts =>
      constructor
      · intro r hr
        simp only [Op.apply, view_handover_save_note]
        split <;> simpa [add_handover_note] using hr
      · intro r hr
        refine ⟨r, ?_, lref r⟩
        simp only [Op.apply, view_handover_save_note]
        split
        · simpa using hr
        · simp only [add_handover_note, List.mem_append]
          exact Or.inl hr
  | vitalsSave rn rc payload prev =>
      exact ⟨fun r hr => view_vitals_save_support_sub rn rc payload prev db r hr,
             fun r hr => ⟨r, view_vitals_save_handover_sub rn rc payload prev db r hr, lref r⟩⟩
  | saveSpecial tv rid rn ymd slot hm ts staff =>
      constructor
      · intro r hr
        simp only [Op.apply, save_special]
        split
        · simpa using hr
        · simp only [add_handover_note, add_progress_log, List.mem_append]
          exact Or.inl hr
      · intro r hr
        refine ⟨r, ?_, lref r⟩
        simp only [Op.apply, save_special]
        split
        · simpa using hr
        · simp only [add_handover_note, add_progress_log, List.mem_append]
          exact Or.inl hr

/-- C8 witness: the amended theorem applied to a like increment on a
one-note store. -/
theorem C8_amended_witness :
    (noteA ∈ oneNoteDB.handover_notes) ∧
    (∃ s ∈ ((Op.incHandoverLike 1).apply oneNoteDB).handover_notes, LikeBump s noteA) :=
  ⟨by decide, (C8_amended_theorem (Op.incHandoverLike 1) oneNoteDB).2 noteA (by decide)⟩

/-! ### Claim C9 -/

/-- C9: `advice_from_vitals` raises the "urgent" flag exactly when
SpO2 ≤ 92, or temperature ≥ 38.5 with condition 活気なし or 傾眠; and the
vitals save appends exactly one handover note — carrying level "urgent" —
precisely when that flag is present, and none otherwise. -/
theorem C9_theorem (r_name r_code : String) (payload : VitalsRow)
    (prev : Option PrevVitals) (db : DB) :
    ("urgent" ∈ (advice_from_vitals payload prev).flags ↔
      (payload.spo2 ≤ 92 ∨ (payload.temperature ≥ 38.5 ∧
        (payload.condition = "活気なし" ∨ payload.condition = "傾眠")))) ∧
    ((view_vitals_save r_name r_code payload prev db).handover_notes.length =
      db.handover_notes.length +
        (if "urgent" ∈ (advice_from_vitals payload prev).flags then 1 else 0)) ∧
    ("urgent" ∈ (advice_from_vitals payload prev).flags →
      ((view_vitals_save r_name r_code payload prev db).handover_notes.getLast?).map
        (fun r => r.level) = some "urgent") :=
  ⟨urgent_flag_iff payload prev,
   view_vitals_save_handover_len r_name r_code payload prev db,
   fun h => view_vitals_save_urgent_level r_name r_code payload prev db h⟩

/-- C9 witness: the theorem applied to the urgent payload over the two-date
store. -/
theorem C9_witness :
    ("urgent" ∈ (advice_from_vitals exVitalsUrgent none).flags) ∧
    ((view_vitals_save "利用者 B" "B" exVitalsUrgent none twoDateDB).handover_notes.getLast?).map
      (fun r => r.level) = some "urgent" :=
  ⟨by decide, ( C9_theorem "利用者 B" "B" exVitalsUrgent none twoDateDB).2.2 (by decide)⟩

/-! ### Claim C10 -/

/-- C10: `_guess_ai_sentiment` is total and always returns exactly one of
"negative", "positive" or "neutral"; and whenever the lowercased text
contains a negative keyword the result is "negative", regardless of any
positive keywords also present. -/
theorem C10_theorem (text : String) :
    (_guess_ai_sentiment text = "negative" ∨ _guess_ai_sentiment text = "positive" ∨
      _guess_ai_sentiment text = "neutral") ∧
    (neg_keys.any (fun k => pyIn (pyLower k) (pyLower text)) = true →
      _guess_ai_sentiment text = "negative") := by
  constructor
  · simp only [_guess_ai_sentiment]
    split
    · exact Or.inl rfl
    · split
      · exact Or.inr (Or.inl rfl)
      · exact Or.inr (Or.inr rfl)
  · intro h
    simp only [_guess_ai_sentiment]
    rw [if_pos h]

/-- C10 witness: a text containing both a negative keyword (転倒) and a
positive keyword (安定) is classified "negative". -/
theorem C10_witness :
    (neg_keys.any (fun k => pyIn (pyLower k) (pyLower "転倒後も安定しています")) = true) ∧
    (pos_keys.any (fun k => pyIn (pyLower k) (pyLower "転倒後も安定しています")) = true) ∧
    _guess_ai_sentiment "転倒後も安定しています" = "negative" :=
  ⟨by decide, by decide, ( C10_theorem "転倒後も安定しています").2 (by decide)⟩

end KaigoApp
